import Mathlib

/-!
Shallow embedding of the `respwriter` Go package: a request-scoped decorator
around a DNS response writer (`RespWriter`), a handler-wrapping factory
(`NewHandlerFunc`), a functional-option mechanism (`applyOpts`, `WithLogger`)
and a reflection-based nil check (`isNil`).

Modelling conventions:
  - A Go interface value is a `GoVal`: the untyped nil interface, a typed nil
    of some reflection kind, or a concrete value tagged with its kind.
  - `context.Context` is `Ctx`: `background` (never terminates) or a
    `withTimeout` child carrying its current termination state.  Passage of
    real time is not modelled; a context is quantified over with an arbitrary
    state instead.
  - The underlying `dns.ResponseWriter` is a record of stub results
    (`DnsWriter`), one per capability the decorator delegates to.
  - Each decorator method returns a `MethRes`: its Go return value, the list
    of operations invoked on the underlying writer, and the post-state of the
    receiver (the Go methods mutate no field except `SetLogger`).
  - A Go `panic` is an `Except.error` carrying the panic message.
-/

namespace Respwriter

/-- The reflection kinds distinguished by the source's `isNil` switch, plus a
catch-all for every other kind. -/
inductive GoKind where
  | ptr
  | map
  | chan
  | slice
  | func
  | other
  deriving DecidableEq

/-- The kinds for which the source's `isNil` consults `reflect.Value.IsNil`
(the `case reflect.Ptr, reflect.Map, reflect.Chan, reflect.Slice,
reflect.Func` arm). -/
def nilableKind : GoKind → Bool
  | GoKind.ptr => true
  | GoKind.map => true
  | GoKind.chan => true
  | GoKind.slice => true
  | GoKind.func => true
  | GoKind.other => false

/-- A Go interface value of dynamic payload type `α`: the untyped nil
interface, a typed nil of kind `k` (a nil pointer, func, map, chan or slice
boxed in a non-nil interface), or a concrete non-nil value of kind `k`. -/
inductive GoVal (α : Type) where
  | nilIface : GoVal α
  | typedNil (k : GoKind) : GoVal α
  | val (k : GoKind) (a : α) : GoVal α

/-- src/isnil.go `isNil`: true on the untyped nil interface; for nilable
kinds, true exactly when the boxed dynamic value is nil; false otherwise. -/
def isNil {α : Type} : GoVal α → Bool
  | GoVal.nilIface => true
  | GoVal.typedNil k => nilableKind k
  | GoVal.val _ _ => false

/-- Extract the boxed concrete value, with a default for the nil cases (the
callers below only extract after `isNil` returned false). -/
def GoVal.getD {α : Type} : GoVal α → α → α
  | GoVal.val _ a, _ => a
  | _, d => d

/-- Go error values reachable in this package: the two `context` termination
errors, the package sentinel `ErrInvalidParameter`, a `fmt.Errorf`-with-`%w`
wrapper, and opaque errors produced by the underlying writer. -/
inductive GoErr where
  | ctxCanceled
  | ctxDeadlineExceeded
  | invalidParameter
  | wrapped (msg : String) (inner : GoErr)
  | other (tag : Nat)
  deriving DecidableEq

/-- `errors.Is`: equality, unwrapping `%w` wrappers along the chain. -/
def GoErr.is : GoErr → GoErr → Bool
  | GoErr.wrapped s inner, t =>
      decide (GoErr.wrapped s inner = t) || GoErr.is inner t
  | e, t => decide (e = t)

/-- Modelled from the spec: the package's distinguishable "invalid parameter"
error kind (`ErrInvalidParameter`); its defining file is not under src/, only
its uses in `NewHandlerFunc` and the tests. -/
def ErrInvalidParameter : GoErr := GoErr.invalidParameter

/-- Termination state of a context: live, cancelled, or past its deadline. -/
inductive CtxState where
  | active
  | canceled
  | deadlineExceeded
  deriving DecidableEq

/-- A `context.Context`: `context.Background()` (never terminates) or a
`context.WithTimeout` child recording its parent, its timeout duration in
nanoseconds, and its current termination state. -/
inductive Ctx where
  | background : Ctx
  | withTimeout (parent : Ctx) (d : Int) (st : CtxState) : Ctx
  deriving DecidableEq

/-- Current termination state; `Background` is never terminated. -/
def Ctx.state : Ctx → CtxState
  | Ctx.background => CtxState.active
  | Ctx.withTimeout _ _ st => st

/-- Whether `<-ctx.Done()` is ready (the done channel is closed): exactly when
the context has been cancelled or its deadline elapsed. -/
def Ctx.doneClosed (c : Ctx) : Bool :=
  match c.state with
  | CtxState.active => false
  | CtxState.canceled => true
  | CtxState.deadlineExceeded => true

/-- `ctx.Err()`: nil while live, `context.Canceled` after cancellation,
`context.DeadlineExceeded` after the deadline elapsed. -/
def Ctx.err (c : Ctx) : Option GoErr :=
  match c.state with
  | CtxState.active => none
  | CtxState.canceled => some GoErr.ctxCanceled
  | CtxState.deadlineExceeded => some GoErr.ctxDeadlineExceeded

/-- A DNS message, opaque to this package (only passed through). -/
abbrev Msg := Nat

/-- A network address, opaque to this package. -/
abbrev Addr := Nat

/-- A raw byte buffer. -/
abbrev Buf := List Nat

/-- A `*slog.Logger` value, opaque to this package. -/
abbrev LoggerV := Nat

/-- The underlying `dns.ResponseWriter` capability set, as a record of the
results its operations produce (a stub of the external collaborator). -/
structure DnsWriter where
  writeMsgFn : Msg → Option GoErr
  writeFn : Buf → Nat × Option GoErr
  remoteAddrFn : Addr
  localAddrFn : Addr
  tsigStatusFn : Option GoErr
  closeFn : Option GoErr

instance : Inhabited DnsWriter :=
  ⟨⟨fun _ => none, fun _ => (0, none), 0, 0, none, none⟩⟩

/-- src/option.go `generalOptions`. -/
structure generalOptions where
  withLogger : Option LoggerV
  deriving DecidableEq

/-- src/option.go `generalDefaults`. -/
def generalDefaults : generalOptions := { withLogger := none }

/-- src/option.go `Option`: `func(interface{})`, possibly the nil func (the
Go source type-asserts the argument to `*generalOptions`; following the
spec's design note for typed targets, the mutator is typed to the options
struct here, with `none` modelling a nil `Option`). -/
abbrev GoOption := Option (generalOptions → generalOptions)

/-- src/option.go `applyOpts`: apply the options in order, skipping nil ones. -/
def applyOpts (opts : generalOptions) : List GoOption → generalOptions
  | [] => opts
  | none :: rest => applyOpts opts rest
  | some o :: rest => applyOpts (o opts) rest

/-- src/option.go `getGeneralOpts`. -/
def getGeneralOpts (opt : List GoOption) : generalOptions :=
  applyOpts generalDefaults opt

/-- src/option.go `WithLogger`: sets the logger field only when the supplied
`*slog.Logger` is not nil (`isNil l` on a pointer is exactly pointer
nilness, modelled by `Option.isSome`). -/
def WithLogger (l : Option LoggerV) : GoOption :=
  some (fun o => if l.isSome then { o with withLogger := l } else o)

/-- The `RespWriter` decorator: wrapped writer, request context, logger. -/
structure RespWriter where
  underlying : DnsWriter
  requestCtx : Ctx
  logger : Option LoggerV

/-- `NewRespWriter`: panics (modelled as `Except.error` with the panic
message) on a nil context or nil writer, otherwise stores the context, the
writer and the logger resolved from the options. -/
def NewRespWriter (ctx : GoVal Ctx) (w : GoVal DnsWriter) (opt : List GoOption) :
    Except String RespWriter :=
  if isNil ctx then Except.error "nil context"
  else if isNil w then Except.error "nil dns.ResponseWriter"
  else
    Except.ok
      { requestCtx := ctx.getD Ctx.background
        logger := (getGeneralOpts opt).withLogger
        underlying := w.getD default }

/-- An operation invoked on the underlying writer (observable effect). -/
inductive Eff where
  | uWriteMsg (m : Msg)
  | uWrite (b : Buf)
  | uRemoteAddr
  | uLocalAddr
  | uTsigStatus
  | uTsigTimersOnly (b : Bool)
  | uHijack
  | uClose
  deriving DecidableEq

/-- Result of one decorator method call: the Go return value, the operations
invoked on the underlying writer, and the receiver's post-state. -/
structure MethRes (α : Type) where
  val : α
  effs : List Eff
  post : RespWriter

/-- `RespWriter.WriteMsg`: if the request context is done, return its error
without touching the underlying writer; otherwise delegate. -/
def RespWriter.WriteMsg (rw : RespWriter) (msg : Msg) : MethRes (Option GoErr) :=
  if rw.requestCtx.doneClosed then
    { val := rw.requestCtx.err, effs := [], post := rw }
  else
    { val := rw.underlying.writeMsgFn msg, effs := [Eff.uWriteMsg msg], post := rw }

/-- `RespWriter.Write`: if the request context is done, return
`(0, ctx.Err())` without touching the underlying writer; otherwise delegate.
The Go source declares its `[]byte` parameter anonymously and delegates the
literal `[]byte{}` — the caller's buffer is ignored. -/
def RespWriter.Write (rw : RespWriter) (_b : Buf) : MethRes (Nat × Option GoErr) :=
  if rw.requestCtx.doneClosed then
    { val := (0, rw.requestCtx.err), effs := [], post := rw }
  else
    { val := rw.underlying.writeFn [], effs := [Eff.uWrite []], post := rw }

/-- `RespWriter.RemoteAddr`: unconditional delegation. -/
def RespWriter.RemoteAddr (rw : RespWriter) : MethRes Addr :=
  { val := rw.underlying.remoteAddrFn, effs := [Eff.uRemoteAddr], post := rw }

/-- `RespWriter.LocalAddr`: unconditional delegation. -/
def RespWriter.LocalAddr (rw : RespWriter) : MethRes Addr :=
  { val := rw.underlying.localAddrFn, effs := [Eff.uLocalAddr], post := rw }

/-- `RespWriter.TsigStatus`: if the request context is done, return its error
without touching the underlying writer; otherwise delegate. -/
def RespWriter.TsigStatus (rw : RespWriter) : MethRes (Option GoErr) :=
  if rw.requestCtx.doneClosed then
    { val := rw.requestCtx.err, effs := [], post := rw }
  else
    { val := rw.underlying.tsigStatusFn, effs := [Eff.uTsigStatus], post := rw }

/-- `RespWriter.TsigTimersOnly`: unconditional delegation (void). -/
def RespWriter.TsigTimersOnly (rw : RespWriter) (b : Bool) : MethRes Unit :=
  { val := (), effs := [Eff.uTsigTimersOnly b], post := rw }

/-- `RespWriter.Hijack`: unconditional delegation (void). -/
def RespWriter.Hijack (rw : RespWriter) : MethRes Unit :=
  { val := (), effs := [Eff.uHijack], post := rw }

/-- `RespWriter.Close`: unconditional delegation. -/
def RespWriter.Close (rw : RespWriter) : MethRes (Option GoErr) :=
  { val := rw.underlying.closeFn, effs := [Eff.uClose], post := rw }

/-- `RespWriter.Underlying`: accessor on the stored writer. -/
def RespWriter.Underlying (rw : RespWriter) : DnsWriter := rw.underlying

/-- `RespWriter.RequestContext`: accessor on the stored context. -/
def RespWriter.RequestContext (rw : RespWriter) : Ctx := rw.requestCtx

/-- `RespWriter.Logger`: accessor on the stored logger. -/
def RespWriter.Logger (rw : RespWriter) : Option LoggerV := rw.logger

/-- `RespWriter.SetLogger`: replaces the logger field, nothing else. -/
def RespWriter.SetLogger (rw : RespWriter) (l : Option LoggerV) : RespWriter :=
  { rw with logger := l }

/-- Outcome of running a handler body: normal return or a propagating panic. -/
inductive HOutcome where
  | normal
  | panicked (s : String)
  deriving DecidableEq

/-- The inner `dns.HandlerFunc`, already adapted to receive the decorator. -/
abbrev HandlerFn := RespWriter → Msg → HOutcome

/-- Observable events of one adapter invocation. -/
inductive AdEv where
  | ctxCreated (c : Ctx)
  | rwConstructed (rw : RespWriter)
  | innerInvoked (rw : RespWriter) (r : Msg)
  | cancelCalled

/-- Result of one adapter invocation: its event trace and its outcome. -/
structure AdResult where
  events : List AdEv
  outcome : HOutcome

/-- The closure returned by `NewHandlerFunc`: create a fresh
`context.WithTimeout(context.Background(), requestTimeout)` (immediately
expired when the timeout is non-positive, live otherwise), defer its
cancellation, wrap the transport writer in a `RespWriter`, and invoke the
inner handler with the decorator.  The deferred cancel runs on every exit
path, including a panic inside `NewRespWriter` or inside the handler. -/
def adapterBody (requestTimeout : Int) (opt : List GoOption) (h : HandlerFn)
    (w : GoVal DnsWriter) (r : Msg) : AdResult :=
  let ctx : Ctx :=
    Ctx.withTimeout Ctx.background requestTimeout
      (if requestTimeout ≤ 0 then CtxState.deadlineExceeded else CtxState.active)
  match NewRespWriter (GoVal.val GoKind.ptr ctx) w opt with
  | Except.error s =>
      { events := [AdEv.ctxCreated ctx, AdEv.cancelCalled]
        outcome := HOutcome.panicked s }
  | Except.ok wrappedWriter =>
      { events :=
          [AdEv.ctxCreated ctx, AdEv.rwConstructed wrappedWriter,
           AdEv.innerInvoked wrappedWriter r, AdEv.cancelCalled]
        outcome := h wrappedWriter r }

/-- `NewHandlerFunc`: rejects a non-positive timeout, then a nil handler,
with errors wrapping `ErrInvalidParameter`; otherwise returns the adapter
closure. -/
def NewHandlerFunc (requestTimeout : Int) (h : GoVal HandlerFn)
    (opt : List GoOption) : Except GoErr (GoVal DnsWriter → Msg → AdResult) :=
  if requestTimeout ≤ 0 then
    Except.error
      (GoErr.wrapped "handlers.NewRespWriterHandler: invalid request timeout"
        ErrInvalidParameter)
  else if isNil h then
    Except.error
      (GoErr.wrapped "handlers.NewRespWriterHandler: nil handler"
        ErrInvalidParameter)
  else
    Except.ok (adapterBody requestTimeout opt (h.getD (fun _ _ => HOutcome.normal)))

/-! Concrete fixtures used by witnesses: a stub underlying writer whose raw
write reports the buffer length, and decorators over cancelled, expired and
live request contexts. -/

/-- A stub underlying writer that always succeeds; its raw write returns the
length of the buffer it was handed. -/
def stubWriter : DnsWriter :=
  { writeMsgFn := fun _ => none
    writeFn := fun b => (b.length, none)
    remoteAddrFn := 7
    localAddrFn := 8
    tsigStatusFn := none
    closeFn := none }

/-- A decorator whose request context has been cancelled. -/
def rwCanceled : RespWriter :=
  ⟨stubWriter, Ctx.withTimeout Ctx.background 100 CtxState.canceled, none⟩

/-- A decorator whose request context passed its deadline. -/
def rwDeadline : RespWriter :=
  ⟨stubWriter, Ctx.withTimeout Ctx.background 100 CtxState.deadlineExceeded, none⟩

/-- A decorator whose request context is still live. -/
def rwActive : RespWriter :=
  ⟨stubWriter, Ctx.withTimeout Ctx.background 100 CtxState.active, none⟩

/-- Claim C1: on a decorator whose request context is already terminated,
WriteMsg, Write and TsigStatus return the context's termination error
(`context.Canceled` after cancellation, `context.DeadlineExceeded` after the
deadline) without invoking any operation on the underlying writer, and Write
additionally returns byte count 0. -/
theorem c1_gated_terminated (rw : RespWriter) (m : Msg) (b : Buf)
    (h : rw.requestCtx.state ≠ CtxState.active) :
    ((rw.WriteMsg m).val = rw.requestCtx.err ∧ (rw.WriteMsg m).effs = []) ∧
    ((rw.Write b).val = (0, rw.requestCtx.err) ∧ (rw.Write b).effs = []) ∧
    (rw.TsigStatus.val = rw.requestCtx.err ∧ rw.TsigStatus.effs = []) ∧
    (rw.requestCtx.state = CtxState.canceled →
      rw.requestCtx.err = some GoErr.ctxCanceled) ∧
    (rw.requestCtx.state = CtxState.deadlineExceeded →
      rw.requestCtx.err = some GoErr.ctxDeadlineExceeded) := by
  have hd : rw.requestCtx.doneClosed = true := by
    cases hs : rw.requestCtx.state <;> simp [Ctx.doneClosed, hs] at h ⊢
  refine ⟨⟨?_, ?_⟩, ⟨?_, ?_⟩, ⟨?_, ?_⟩, fun hs => ?_, fun hs => ?_⟩ <;>
    simp [RespWriter.WriteMsg, RespWriter.Write, RespWriter.TsigStatus,
      Ctx.err, hd, *]

/-- Witness for C1 at the cancelled-context decorator. -/
theorem c1_gated_terminated_witness :
    rwCanceled.requestCtx.state ≠ CtxState.active ∧
    (((rwCanceled.WriteMsg 0).val = rwCanceled.requestCtx.err ∧
        (rwCanceled.WriteMsg 0).effs = []) ∧
      ((rwCanceled.Write [1]).val = (0, rwCanceled.requestCtx.err) ∧
        (rwCanceled.Write [1]).effs = []) ∧
      (rwCanceled.TsigStatus.val = rwCanceled.requestCtx.err ∧
        rwCanceled.TsigStatus.effs = []) ∧
      (rwCanceled.requestCtx.state = CtxState.canceled →
        rwCanceled.requestCtx.err = some GoErr.ctxCanceled) ∧
      (rwCanceled.requestCtx.state = CtxState.deadlineExceeded →
        rwCanceled.requestCtx.err = some GoErr.ctxDeadlineExceeded)) :=
  ⟨by decide, c1_gated_terminated rwCanceled 0 [1] (by decide)⟩

/-- Claim C2 (code bug evaluation): with a live context, `Write` delegates
the literal empty buffer to the underlying writer, ignoring the caller's
buffer: against a stub whose raw write returns the buffer length, Write [1]
yields count 0 (the empty buffer's length) and records a delegation of [],
while delegating the caller's buffer would yield count 1. -/
theorem c2_write_ignores_buffer :
    (rwActive.Write [1]).val = (0, none) ∧
    (rwActive.Write [1]).effs = [Eff.uWrite []] ∧
    rwActive.underlying.writeFn [1] = (1, none) ∧
    (rwActive.Write [1]).val ≠ rwActive.underlying.writeFn [1] := by
  refine ⟨rfl, rfl, rfl, by decide⟩

/-- Claim C3: the factory rejects a non-positive timeout or a nil handler
with an error satisfying `errors.Is(err, ErrInvalidParameter)`, returning no
adapter handler; the checks run at construction time. -/
theorem c3_factory_validation (d : Int) (h : GoVal HandlerFn)
    (opt : List GoOption) (hbad : d ≤ 0 ∨ isNil h = true) :
    ∃ e, NewHandlerFunc d h opt = Except.error e ∧
      GoErr.is e ErrInvalidParameter = true := by
  rcases hbad with hd | hn
  · exact ⟨GoErr.wrapped "handlers.NewRespWriterHandler: invalid request timeout"
      ErrInvalidParameter, by simp [NewHandlerFunc, hd], by decide⟩
  · by_cases hd : d ≤ 0
    · exact ⟨GoErr.wrapped "handlers.NewRespWriterHandler: invalid request timeout"
        ErrInvalidParameter, by simp [NewHandlerFunc, hd], by decide⟩
    · exact ⟨GoErr.wrapped "handlers.NewRespWriterHandler: nil handler"
        ErrInvalidParameter, by simp [NewHandlerFunc, hd, hn], by decide⟩

/-- Witness for C3 at timeout 0 with a nil handler. -/
theorem c3_factory_validation_witness :
    ((0 : Int) ≤ 0 ∨ isNil (GoVal.nilIface : GoVal HandlerFn) = true) ∧
    ∃ e, NewHandlerFunc 0 GoVal.nilIface [] = Except.error e ∧
      GoErr.is e ErrInvalidParameter = true :=
  ⟨Or.inl (by decide), c3_factory_validation 0 GoVal.nilIface [] (Or.inl (by decide))⟩

/-- Claim C4: `NewRespWriter` panics (never returns a decorator) when the
context or the writer is nil, and otherwise returns a decorator storing
exactly the given context and writer (and the logger resolved from the
options). -/
theorem c4_construction (ctx : GoVal Ctx) (w : GoVal DnsWriter)
    (opt : List GoOption) :
    ((isNil ctx = true ∨ isNil w = true) →
      ∃ s, NewRespWriter ctx w opt = Except.error s) ∧
    (∀ (kc kw : GoKind) (c : Ctx) (u : DnsWriter),
      ctx = GoVal.val kc c → w = GoVal.val kw u →
      NewRespWriter ctx w opt =
        Except.ok { requestCtx := c, underlying := u,
                    logger := (getGeneralOpts opt).withLogger }) := by
  constructor
  · rintro (hn | hn)
    · exact ⟨"nil context", by simp [NewRespWriter, hn]⟩
    · by_cases hc : isNil ctx = true
      · exact ⟨"nil context", by simp [NewRespWriter, hc]⟩
      · exact ⟨"nil dns.ResponseWriter", by simp [NewRespWriter, hc, hn]⟩
  · rintro kc kw c u rfl rfl
    rfl

/-- Witness for C4: a nil context panics; live context and writer are stored. -/
theorem c4_construction_witness :
    (∃ s, NewRespWriter GoVal.nilIface (GoVal.val GoKind.ptr stubWriter) [] =
      Except.error s) ∧
    NewRespWriter (GoVal.val GoKind.ptr Ctx.background)
        (GoVal.val GoKind.ptr stubWriter) [] =
      Except.ok { requestCtx := Ctx.background, underlying := stubWriter,
                  logger := (getGeneralOpts []).withLogger } :=
  ⟨(c4_construction GoVal.nilIface (GoVal.val GoKind.ptr stubWriter) []).1
      (Or.inl rfl),
   (c4_construction (GoVal.val GoKind.ptr Ctx.background)
      (GoVal.val GoKind.ptr stubWriter) []).2 GoKind.ptr GoKind.ptr
      Ctx.background stubWriter rfl rfl⟩

/-- Claim C5: RemoteAddr, LocalAddr, TsigTimersOnly, Hijack and Close
delegate unconditionally to the underlying writer and return its result,
regardless of (and without consulting) the request context: each equals the
underlying stub's result with the matching delegation recorded, and the
returned values are unchanged under any replacement of the request context. -/
theorem c5_ungated_delegation (rw : RespWriter) (b : Bool) :
    rw.RemoteAddr = ⟨rw.underlying.remoteAddrFn, [Eff.uRemoteAddr], rw⟩ ∧
    rw.LocalAddr = ⟨rw.underlying.localAddrFn, [Eff.uLocalAddr], rw⟩ ∧
    rw.TsigTimersOnly b = ⟨(), [Eff.uTsigTimersOnly b], rw⟩ ∧
    rw.Hijack = ⟨(), [Eff.uHijack], rw⟩ ∧
    rw.Close = ⟨rw.underlying.closeFn, [Eff.uClose], rw⟩ ∧
    (∀ c2 : Ctx,
      (RespWriter.mk rw.underlying c2 rw.logger).RemoteAddr.val =
        rw.RemoteAddr.val ∧
      (RespWriter.mk rw.underlying c2 rw.logger).LocalAddr.val =
        rw.LocalAddr.val ∧
      (RespWriter.mk rw.underlying c2 rw.logger).Close.val = rw.Close.val ∧
      (RespWriter.mk rw.underlying c2 rw.logger).RemoteAddr.effs =
        rw.RemoteAddr.effs ∧
      (RespWriter.mk rw.underlying c2 rw.logger).LocalAddr.effs =
        rw.LocalAddr.effs ∧
      (RespWriter.mk rw.underlying c2 rw.logger).Close.effs = rw.Close.effs) :=
  ⟨rfl, rfl, rfl, rfl, rfl, fun _ => ⟨rfl, rfl, rfl, rfl, rfl, rfl⟩⟩

/-- Claim C6: on a decorator whose request context is still live, WriteMsg
delegates the message to the underlying writer and returns its result, and
TsigStatus delegates and returns the underlying status; in particular, with
an always-succeeding underlying writer, WriteMsg returns no error. -/
theorem c6_active_delegation (rw : RespWriter) (m : Msg)
    (h : rw.requestCtx.state = CtxState.active) :
    ((rw.WriteMsg m).val = rw.underlying.writeMsgFn m ∧
      (rw.WriteMsg m).effs = [Eff.uWriteMsg m]) ∧
    (rw.TsigStatus.val = rw.underlying.tsigStatusFn ∧
      rw.TsigStatus.effs = [Eff.uTsigStatus]) ∧
    (rw.underlying.writeMsgFn m = none → (rw.WriteMsg m).val = none) := by
  have hd : rw.requestCtx.doneClosed = false := by simp [Ctx.doneClosed, h]
  refine ⟨⟨?_, ?_⟩, ⟨?_, ?_⟩, fun hh => ?_⟩ <;>
    simp [RespWriter.WriteMsg, RespWriter.TsigStatus, hd, *]

/-- Witness for C6 at the live-context decorator over the succeeding stub. -/
theorem c6_active_delegation_witness :
    rwActive.requestCtx.state = CtxState.active ∧
    (((rwActive.WriteMsg 3).val = rwActive.underlying.writeMsgFn 3 ∧
        (rwActive.WriteMsg 3).effs = [Eff.uWriteMsg 3]) ∧
      (rwActive.TsigStatus.val = rwActive.underlying.tsigStatusFn ∧
        rwActive.TsigStatus.effs = [Eff.uTsigStatus]) ∧
      (rwActive.underlying.writeMsgFn 3 = none →
        (rwActive.WriteMsg 3).val = none)) :=
  ⟨rfl, c6_active_delegation rwActive 3 rfl⟩

/-- Claim C7: for a valid factory construction, each invocation of the
returned adapter derives a fresh deadline-bound context whose parent is the
top-level background scope, constructs a RespWriter wrapping the
transport-supplied writer and that context, invokes the inner handler with
the decorator in place of the raw writer, returns the handler's outcome, and
the deferred cancellation is the last event on every exit path (any handler,
any writer, panicking included). -/
theorem c7_adapter_wiring (d : Int) (hf : HandlerFn) (kw : GoKind)
    (u : DnsWriter) (opt : List GoOption) (r : Msg) (hd : 0 < d) :
    NewHandlerFunc d (GoVal.val GoKind.func hf) opt =
      Except.ok (adapterBody d opt hf) ∧
    (∃ rw : RespWriter,
      rw.underlying = u ∧
      rw.requestCtx = Ctx.withTimeout Ctx.background d CtxState.active ∧
      rw.logger = (getGeneralOpts opt).withLogger ∧
      (adapterBody d opt hf (GoVal.val kw u) r).events =
        [AdEv.ctxCreated (Ctx.withTimeout Ctx.background d CtxState.active),
         AdEv.rwConstructed rw, AdEv.innerInvoked rw r, AdEv.cancelCalled] ∧
      (adapterBody d opt hf (GoVal.val kw u) r).outcome = hf rw r) ∧
    (∀ (h2 : HandlerFn) (w2 : GoVal DnsWriter),
      (adapterBody d opt h2 w2 r).events.getLast? = some AdEv.cancelCalled) := by
  have hnle : ¬ d ≤ 0 := not_le.mpr hd
  refine ⟨?_, ?_, ?_⟩
  · simp [NewHandlerFunc, hnle, GoVal.getD, isNil]
  · refine ⟨⟨u, Ctx.withTimeout Ctx.background d CtxState.active,
        (getGeneralOpts opt).withLogger⟩, rfl, rfl, rfl, ?_, ?_⟩ <;>
      simp [adapterBody, NewRespWriter, isNil, GoVal.getD, hnle]
  · intro h2 w2
    simp only [adapterBody]
    split <;> rfl

/-- Witness for C7 at timeout 1, a trivially-returning handler and the stub
writer. -/
theorem c7_adapter_wiring_witness :
    (0 : Int) < 1 ∧
    (NewHandlerFunc 1 (GoVal.val GoKind.func (fun _ _ => HOutcome.normal)) [] =
      Except.ok (adapterBody 1 [] (fun _ _ => HOutcome.normal)) ∧
    (∃ rw : RespWriter,
      rw.underlying = stubWriter ∧
      rw.requestCtx = Ctx.withTimeout Ctx.background 1 CtxState.active ∧
      rw.logger = (getGeneralOpts []).withLogger ∧
      (adapterBody 1 [] (fun _ _ => HOutcome.normal)
          (GoVal.val GoKind.ptr stubWriter) 0).events =
        [AdEv.ctxCreated (Ctx.withTimeout Ctx.background 1 CtxState.active),
         AdEv.rwConstructed rw, AdEv.innerInvoked rw 0, AdEv.cancelCalled] ∧
      (adapterBody 1 [] (fun _ _ => HOutcome.normal)
          (GoVal.val GoKind.ptr stubWriter) 0).outcome =
        (fun (_ : RespWriter) (_ : Msg) => HOutcome.normal) rw 0) ∧
    (∀ (h2 : HandlerFn) (w2 : GoVal DnsWriter),
      (adapterBody 1 [] h2 w2 0).events.getLast? = some AdEv.cancelCalled)) :=
  ⟨by decide,
   c7_adapter_wiring 1 (fun _ _ => HOutcome.normal) GoKind.ptr stubWriter [] 0
     (by decide)⟩

/-- Claim C8: options apply in order, nil options are skipped, and for the
logger field later options win; a WithLogger carrying a nil logger is a no-op
and does not clear an earlier logger, while two non-nil WithLogger options
leave the second logger. -/
theorem c8_options_order (o : generalOptions) (rest : List GoOption)
    (g : generalOptions → generalOptions) (a b : LoggerV) :
    applyOpts o (none :: rest) = applyOpts o rest ∧
    applyOpts o (some g :: rest) = applyOpts (g o) rest ∧
    applyOpts o [WithLogger none] = o ∧
    applyOpts o [WithLogger (some a), WithLogger none] =
      applyOpts o [WithLogger (some a)] ∧
    applyOpts o [WithLogger (some a), WithLogger (some b)] =
      { o with withLogger := some b } ∧
    getGeneralOpts [WithLogger (some a), WithLogger (some b)] =
      { withLogger := some b } :=
  ⟨rfl, rfl, rfl, rfl, rfl, rfl⟩

/-- Claim C9: no public operation changes the stored underlying writer or
request context; only SetLogger changes the decorator's state, touching only
the logger field, and Logger then returns the value last set (accessors
Underlying and RequestContext always return the stored fields). -/
theorem c9_frame (rw : RespWriter) (m : Msg) (b : Buf) (bb : Bool)
    (l l2 : Option LoggerV) :
    (rw.WriteMsg m).post = rw ∧ (rw.Write b).post = rw ∧
    rw.RemoteAddr.post = rw ∧ rw.LocalAddr.post = rw ∧
    rw.TsigStatus.post = rw ∧ (rw.TsigTimersOnly bb).post = rw ∧
    rw.Hijack.post = rw ∧ rw.Close.post = rw ∧
    (rw.SetLogger l).underlying = rw.underlying ∧
    (rw.SetLogger l).requestCtx = rw.requestCtx ∧
    (rw.SetLogger l).Logger = l ∧
    ((rw.SetLogger l).SetLogger l2).Logger = l2 ∧
    rw.Underlying = rw.underlying ∧
    rw.RequestContext = rw.requestCtx := by
  refine ⟨?_, ?_, rfl, rfl, ?_, rfl, rfl, rfl, rfl, rfl, rfl, rfl, rfl, rfl⟩ <;>
    cases hdc : rw.requestCtx.doneClosed <;>
      simp [RespWriter.WriteMsg, RespWriter.Write, RespWriter.TsigStatus, hdc]

/-- Claim C10: nil collaborators are detected by the reflection-based check,
not only by comparison with the untyped nil interface: a typed-nil func
handler is rejected by the factory with the invalid-parameter error exactly
like an untyped nil handler, and a typed-nil pointer context or writer makes
`NewRespWriter` panic exactly like an untyped nil one. -/
theorem c10_reflection_nil (opt : List GoOption) (k : GoKind) (c : Ctx)
    (u : DnsWriter) :
    isNil (GoVal.typedNil GoKind.func : GoVal HandlerFn) = true ∧
    isNil (GoVal.nilIface : GoVal HandlerFn) = true ∧
    NewHandlerFunc 1 (GoVal.typedNil GoKind.func) opt =
      NewHandlerFunc 1 GoVal.nilIface opt ∧
    (∃ e, NewHandlerFunc 1 (GoVal.typedNil GoKind.func) opt = Except.error e ∧
      GoErr.is e ErrInvalidParameter = true) ∧
    NewRespWriter (GoVal.typedNil GoKind.ptr) (GoVal.val k u) opt =
      Except.error "nil context" ∧
    NewRespWriter GoVal.nilIface (GoVal.val k u) opt =
      Except.error "nil context" ∧
    NewRespWriter (GoVal.val k c) (GoVal.typedNil GoKind.ptr) opt =
      Except.error "nil dns.ResponseWriter" ∧
    NewRespWriter (GoVal.val k c) GoVal.nilIface opt =
      Except.error "nil dns.ResponseWriter" :=
  ⟨rfl, rfl, rfl,
   ⟨GoErr.wrapped "handlers.NewRespWriterHandler: nil handler"
      ErrInvalidParameter, rfl, by decide⟩,
   rfl, rfl, rfl, rfl⟩

end Respwriter
